import Mathlib

/-!
Shallow embedding of `src/scripts/update_car_prices.py` (the price
backfill procedure `update_prices`) and proofs about it.

Modelling conventions:
* JSON objects become association lists (`List (String × _)`) preserving
  insertion order, since Python dicts iterate in insertion order and the
  fallback `min(...)` depends on that order.
* A vehicle record is a structure whose fields are `Option`s: `none`
  models an absent key, and accessing an absent key is a `KeyError`.
* `yearOfManufacture` is carried as the string the JSON held; `int(...)`
  is modelled by `pyParseInt`.
* `avgPrice` values are integers (currency amounts), so Python's
  `int(round(avg_price / 100.0)) * 100` is exact rational rounding
  half-to-even of `avg/100`, modelled by `pyRound100`.
* An uncaught Python exception is an `Except.error`: the run aborts and
  the final `json.dump` (catalog rewrite) never happens, so only an
  `Except.ok` result carries an output catalog.
-/

/-- `KeyError(key)` or `ValueError(literal)` raised during the run. -/
inductive Err where
  | keyError : String → Err
  | valueError : String → Err
deriving DecidableEq

deriving instance DecidableEq for Except

/-- A vehicle record from `cars.json`; `none` fields model absent JSON keys. -/
structure Car where
  make : Option String
  model : Option String
  fuelType : Option String
  yearOfManufacture : Option String
  basicPrice : Option Int
  originalListPrice : Option Int
deriving DecidableEq

/-- A per-year stats object, e.g. `{"avgPrice": 6430}`: an insertion-ordered dict. -/
abbrev StatsRec := List (String × Int)

/-- The fuel-level mapping: year string → stats record, insertion-ordered. -/
abbrev ModelData := List (String × StatsRec)

/-- The full statistics table: make → model → fuelType → year → record. -/
abbrev Stats := List (String × List (String × List (String × ModelData)))

/-- Python dict lookup `d[k]` / `k in d` on an association list (keys unique,
first match wins). -/
def dlookup {α : Type} : List (String × α) → String → Option α
  | [], _ => none
  | (k', v) :: rest, k => if k' = k then some v else dlookup rest k

/-- The whitespace set `str.strip()` removes (ASCII part). -/
def pyIsSpace (c : Char) : Bool :=
  c = ' ' ∨ c = '\t' ∨ c = '\n' ∨ c = '\r' ∨ c = '\x0b' ∨ c = '\x0c'

/-- `str.strip()` on the character list: drop whitespace at both ends. -/
def stripChars (l : List Char) : List Char :=
  ((l.dropWhile pyIsSpace).reverse.dropWhile pyIsSpace).reverse

/-- `str.lower()` (ASCII case fold, which covers the catalog's keys). -/
def pyLower (s : String) : String :=
  ⟨s.data.map Char.toLower⟩

/-- `str.strip()`. -/
def pyStrip (s : String) : String :=
  ⟨stripChars s.data⟩

/-- `normalize_key(key)`: `key.lower().strip()`. -/
def normalize_key (key : String) : String :=
  pyStrip (pyLower key)

/-- `CURRENT_YEAR = 2026` (fixed in the source). -/
def CURRENT_YEAR : Int := 2026

/-- `DATA_YEAR = 2022` (fixed in the source). -/
def DATA_YEAR : Int := 2022

/-- `'0'-'9'` (ASCII decimal digit, as both `int()` and `isdigit()` accept). -/
def isDigitChar (c : Char) : Bool :=
  48 ≤ c.toNat ∧ c.toNat ≤ 57

/-- Decimal value of a digit list. -/
def digitsVal (l : List Char) : Nat :=
  l.foldl (fun n c => n * 10 + (c.toNat - 48)) 0

/-- `int(s)` for a JSON string: strip whitespace, optional sign, decimal
digits; `none` models the `ValueError` raised on anything else. -/
def pyParseInt (s : String) : Option Int :=
  match stripChars s.data with
  | [] => none
  | c :: cs =>
    if c = '-' then
      if cs ≠ [] ∧ cs.all isDigitChar then some (-(digitsVal cs : Int)) else none
    else if c = '+' then
      if cs ≠ [] ∧ cs.all isDigitChar then some (digitsVal cs : Int) else none
    else if (c :: cs).all isDigitChar then some (digitsVal (c :: cs) : Int)
    else none

/-- `str.isdigit()` for the year keys collected in the fallback. -/
def strIsDigit (s : String) : Bool :=
  s.data ≠ [] ∧ s.data.all isDigitChar

/-- `int(y)` for a key that passed `isdigit()`. -/
def digitVal (s : String) : Int :=
  Int.ofNat (digitsVal s.data)

/-- `int(round(n / 100.0)) * 100`: round `n/100` half-to-even (Python's
`round` on the exactly-representable half cases; non-half cases round to
nearest), then scale back to a whole hundred. -/
def pyRound100 (n : Int) : Int :=
  let q := n.ediv 100
  let r := n.emod 100
  let k := if r < 50 then q
           else if 50 < r then q + 1
           else if q.emod 2 = 0 then q else q + 1
  k * 100

/-- `min(avail_years, key=lambda x: abs(x - target))`: Python's `min`
returns the first element attaining the minimal key in list order. -/
def minByAbsDist (target : Int) : List Int → Option Int
  | [] => none
  | x :: xs =>
    some (xs.foldl (fun best y =>
      if (y - target).natAbs < (best - target).natAbs then y else best) x)

/-- The guarded three-level path `stats[make][model][fuel]` from
`if make in stats and model in stats[make] and fuel in stats[make][model]`. -/
def statsPath (stats : Stats) (make model fuel : String) : Option ModelData :=
  match dlookup stats make with
  | none => none
  | some mm =>
    match dlookup mm model with
    | none => none
    | some fm => dlookup fm fuel

/-- `avail_years = [int(y) for y in model_data.keys() if y.isdigit()]`. -/
def availYears (model_data : ModelData) : List Int :=
  ((model_data.map Prod.fst).filter (fun y => strIsDigit y)).map digitVal

/-- Lines 38–53 of the source: resolve `found_data` for one car — exact
match on `str(target_lookup_year)`, else the closest-year fallback.
`Except.error` models the `KeyError` Python would raise on
`model_data[str(closest_year)]` when the chosen key round-trips
differently (e.g. leading zeros). -/
def findData (stats : Stats) (make model fuel : String)
    (target_lookup_year : Int) : Except Err (Option StatsRec) :=
  match statsPath stats make model fuel with
  | none => .ok none
  | some model_data =>
    match dlookup model_data (toString target_lookup_year) with
    | some d => .ok (some d)
    | none =>
      match minByAbsDist target_lookup_year (availYears model_data) with
      | none => .ok none
      | some closest_year =>
        match dlookup model_data (toString closest_year) with
        | some d => .ok (some d)
        | none => .error (.keyError (toString closest_year))

/-- The body of the `for car in cars:` loop for one car: returns the
(possibly updated) record together with its contribution to
`updated_count` and `missing_count`, or the exception that aborts the
run. Field accesses happen in source order: `car['make']`,
`car['model']`, `car['fuelType']`, `int(car['yearOfManufacture'])`, then
— only when `found_data` is truthy — `found_data['avgPrice']`,
`car['basicPrice']`, and the no-op sanity check's reads of
`car['basicPrice']` and `car['originalListPrice']`. -/
def processCar (stats : Stats) (car : Car) : Except Err (Car × Nat × Nat) :=
  match car.make with
  | none => .error (.keyError "make")
  | some makeRaw =>
  match car.model with
  | none => .error (.keyError "model")
  | some modelRaw =>
  match car.fuelType with
  | none => .error (.keyError "fuelType")
  | some fuelRaw =>
  match car.yearOfManufacture with
  | none => .error (.keyError "yearOfManufacture")
  | some yearRaw =>
  match pyParseInt yearRaw with
  | none => .error (.valueError yearRaw)
  | some car_year_int =>
    let make := normalize_key makeRaw
    let model := normalize_key modelRaw
    let fuel := normalize_key fuelRaw
    let current_age := CURRENT_YEAR - car_year_int
    let target_lookup_year := DATA_YEAR - current_age
    match findData stats make model fuel target_lookup_year with
    | .error e => .error e
    | .ok found_data =>
      match found_data with
      | some (entry :: rest) =>
        -- `if found_data:` — truthy only for a non-empty dict.
        match dlookup (entry :: rest) "avgPrice" with
        | none => .error (.keyError "avgPrice")
        | some avg_price =>
          let new_price := pyRound100 avg_price
          match car.basicPrice with
          | none => .error (.keyError "basicPrice")
          | some bp =>
            let car2 := if new_price ≠ bp then { car with basicPrice := some new_price } else car
            let upd : Nat := if new_price ≠ bp then 1 else 0
            -- Sanity check `if car['basicPrice'] > car['originalListPrice']: pass`
            -- only reads the two fields; a missing one raises KeyError.
            match car.originalListPrice with
            | none => .error (.keyError "originalListPrice")
            | some _ => .ok (car2, upd, 0)
      | _ =>
        -- `found_data` is `None` or an empty dict: lookup miss.
        .ok (car, 0, 1)

/-- Lines 17–75 of `update_prices`: one sequential pass over the catalog,
accumulating `updated_count` and `missing_count`. `.ok (out, u, m)`
means the run completed and `out` is what `json.dump` writes back;
`.error e` means the exception aborted the run before the rewrite, so
the stored catalog stays untouched. -/
def update_prices (stats : Stats) : List Car → Except Err (List Car × Nat × Nat)
  | [] => .ok ([], 0, 0)
  | car :: rest =>
    match processCar stats car with
    | .error e => .error e
    | .ok (car', u, m) =>
      match update_prices stats rest with
      | .error e => .error e
      | .ok (rest', us, ms) => .ok (car' :: rest', u + us, m + ms)

/-- Equality of two vehicle records on every field except `basicPrice`. -/
def agreeExceptBasic (a b : Car) : Prop :=
  a.make = b.make ∧ a.model = b.model ∧ a.fuelType = b.fuelType ∧
  a.yearOfManufacture = b.yearOfManufacture ∧ a.originalListPrice = b.originalListPrice

/-- `y` is the first element of `l` attaining the minimal absolute distance
to `t`: everything before it is strictly farther, everything after is no
nearer. This is exactly how Python's `min(..., key=...)` selects. -/
def isFirstMin (t : Int) (l : List Int) (y : Int) : Prop :=
  ∃ l₁ l₂, l = l₁ ++ y :: l₂ ∧
    (∀ x ∈ l₁, (y - t).natAbs < (x - t).natAbs) ∧
    (∀ x ∈ l₂, (y - t).natAbs ≤ (x - t).natAbs)

/-- The always-read string fields of a record, indexed by JSON key. -/
def reqField (c : Car) (f : String) : Option String :=
  if f = "make" then c.make
  else if f = "model" then c.model
  else if f = "fuelType" then c.fuelType
  else c.yearOfManufacture

/- Concrete fixtures used by the closed theorems below. -/

def fordCar : Car :=
  ⟨some "Ford", some "Focus", some "Petrol", some "2018", some 5000, some 12000⟩

def fordCarAfter : Car :=
  ⟨some "Ford", some "Focus", some "Petrol", some "2018", some 6400, some 12000⟩

def fordStats : Stats :=
  [("ford", [("focus", [("petrol", [("2014", [("avgPrice", 6430)])])])])]

def tieMD : ModelData :=
  [("2016", [("avgPrice", 5000)]), ("2012", [("avgPrice", 7000)])]

def tieMDSwap : ModelData :=
  [("2012", [("avgPrice", 7000)]), ("2016", [("avgPrice", 5000)])]

def tieStats : Stats := [("ford", [("focus", [("petrol", tieMD)])])]

def tieStatsSwap : Stats := [("ford", [("focus", [("petrol", tieMDSwap)])])]

def badYearCar : Car :=
  ⟨some "Ford", some "Focus", some "Petrol", some "20x8", some 5000, some 12000⟩

def noListPriceCar : Car :=
  ⟨some "Ford", some "Focus", some "Petrol", some "2018", some 5000, none⟩

def audiCar : Car :=
  ⟨some "Audi", some "TT", some "Petrol", some "2010", some 9000, some 30000⟩

def lowListCar : Car :=
  ⟨some "Ford", some "Focus", some "Petrol", some "2018", some 5000, some 6000⟩

def matchedCar : Car :=
  ⟨some "Ford", some "Focus", some "Petrol", some "2018", some 6400, some 12000⟩

def emptyRecStats : Stats :=
  [("ford", [("focus", [("petrol", [("2014", [])])])])]

example : pyRound100 6430 = 6400 := by decide
example : pyRound100 6450 = 6400 := by decide
example : pyRound100 6350 = 6400 := by decide
example : normalize_key "  Ford " = "ford" := by decide
example : pyParseInt "2018" = some 2018 := by decide
example : pyParseInt "20x8" = none := by decide

/-- Success of the loop body when a non-empty stats record with an
`avgPrice` is resolved: the price is recomputed and applied exactly when
it differs from the current one. -/
theorem processCar_found (stats : Stats)
    (mk md fl yr : String) (obp : Option Int) (Y a bp olp : Int) (fd : StatsRec)
    (hY : pyParseInt yr = some Y)
    (hfd : findData stats (normalize_key mk) (normalize_key md) (normalize_key fl)
            (DATA_YEAR - (CURRENT_YEAR - Y)) = .ok (some fd))
    (ha : dlookup fd "avgPrice" = some a)
    (hbp : obp = some bp) :
    processCar stats (Car.mk (some mk) (some md) (some fl) (some yr) obp (some olp)) =
      .ok (Car.mk (some mk) (some md) (some fl) (some yr) (some (pyRound100 a)) (some olp),
           if pyRound100 a = bp then 0 else 1, 0) := by
  subst hbp
  cases fd with
  | nil => simp [dlookup] at ha
  | cons e es =>
    simp only [processCar, hY, hfd, ha]
    by_cases h : pyRound100 a = bp
    · simp [h]
    · simp [h]

/-- A falsy `found_data` (`None` or `{}`) leaves the record untouched and
counts one lookup miss, whatever `basicPrice`/`originalListPrice` hold. -/
theorem processCar_notFound (stats : Stats)
    (mk md fl yr : String) (obp oolp : Option Int) (Y : Int) (fdOpt : Option StatsRec)
    (hY : pyParseInt yr = some Y)
    (hfd : findData stats (normalize_key mk) (normalize_key md) (normalize_key fl)
            (DATA_YEAR - (CURRENT_YEAR - Y)) = .ok fdOpt)
    (hfalsy : fdOpt = none ∨ fdOpt = some []) :
    processCar stats (Car.mk (some mk) (some md) (some fl) (some yr) obp oolp) =
      .ok (Car.mk (some mk) (some md) (some fl) (some yr) obp oolp, 0, 1) := by
  rcases hfalsy with h | h <;> subst h <;> simp only [processCar, hY, hfd]

/-- `processCar_notFound` restated for an abstract record. -/
theorem processCar_notFound_car (stats : Stats) (car : Car)
    (mk md fl yr : String) (Y : Int) (fdOpt : Option StatsRec)
    (hmk : car.make = some mk) (hmd : car.model = some md)
    (hfl : car.fuelType = some fl) (hyr : car.yearOfManufacture = some yr)
    (hY : pyParseInt yr = some Y)
    (hfd : findData stats (normalize_key mk) (normalize_key md) (normalize_key fl)
      (DATA_YEAR - (CURRENT_YEAR - Y)) = .ok fdOpt)
    (hfalsy : fdOpt = none ∨ fdOpt = some []) :
    processCar stats car = .ok (car, 0, 1) := by
  obtain ⟨om, omd, ofl, oyr, obp, oolp⟩ := car
  replace hmk : om = some mk := hmk
  replace hmd : omd = some md := hmd
  replace hfl : ofl = some fl := hfl
  replace hyr : oyr = some yr := hyr
  subst hmk; subst hmd; subst hfl; subst hyr
  exact processCar_notFound stats mk md fl yr obp oolp Y fdOpt hY hfd hfalsy

/-- Re-running the loop body on its own output changes nothing and
reports no update. -/
theorem processCar_idem (stats : Stats) (car car' : Car) (u m : Nat)
    (h : processCar stats car = .ok (car', u, m)) :
    processCar stats car' = .ok (car', 0, m) := by
  obtain ⟨om, omd, ofl, oyr, obp, oolp⟩ := car
  cases om with
  | none => simp [processCar] at h
  | some mk =>
  cases omd with
  | none => simp [processCar] at h
  | some md =>
  cases ofl with
  | none => simp [processCar] at h
  | some fl =>
  cases oyr with
  | none => simp [processCar] at h
  | some yr =>
  cases hY : pyParseInt yr with
  | none => simp [processCar, hY] at h
  | some Y =>
  cases hfd : findData stats (normalize_key mk) (normalize_key md) (normalize_key fl)
      (DATA_YEAR - (CURRENT_YEAR - Y)) with
  | error e => simp [processCar, hY, hfd] at h
  | ok fdOpt =>
    match fdOpt with
    | none =>
      simp only [processCar, hY, hfd, Except.ok.injEq, Prod.mk.injEq] at h
      obtain ⟨hc, hu, hm⟩ := h
      subst hc; subst hm
      simp only [processCar, hY, hfd]
    | some [] =>
      simp only [processCar, hY, hfd, Except.ok.injEq, Prod.mk.injEq] at h
      obtain ⟨hc, hu, hm⟩ := h
      subst hc; subst hm
      simp only [processCar, hY, hfd]
    | some (e :: es) =>
      cases ha : dlookup (e :: es) "avgPrice" with
      | none => simp [processCar, hY, hfd, ha] at h
      | some a =>
      cases obp with
      | none => simp [processCar, hY, hfd, ha] at h
      | some bp =>
      cases oolp with
      | none => simp [processCar, hY, hfd, ha] at h
      | some olp =>
        simp only [processCar, hY, hfd, ha, Except.ok.injEq, Prod.mk.injEq] at h
        obtain ⟨hc, hu, hm⟩ := h
        subst hm
        have hcar : car' = Car.mk (some mk) (some md) (some fl) (some yr)
            (some (pyRound100 a)) (some olp) := by
          by_cases hnp : pyRound100 a = bp
          · simp [hnp] at hc
            simp [← hc, hnp]
          · simp [hnp] at hc
            simp [← hc]
        subst hcar
        have := processCar_found stats mk md fl yr (some (pyRound100 a)) Y a
          (pyRound100 a) olp (e :: es) hY hfd ha rfl
        simpa using this

/-- The loop body never touches a field other than `basicPrice`. -/
theorem processCar_frame (stats : Stats) (car car' : Car) (u m : Nat)
    (h : processCar stats car = .ok (car', u, m)) : agreeExceptBasic car car' := by
  obtain ⟨om, omd, ofl, oyr, obp, oolp⟩ := car
  cases om with
  | none => simp [processCar] at h
  | some mk =>
  cases omd with
  | none => simp [processCar] at h
  | some md =>
  cases ofl with
  | none => simp [processCar] at h
  | some fl =>
  cases oyr with
  | none => simp [processCar] at h
  | some yr =>
  cases hY : pyParseInt yr with
  | none => simp [processCar, hY] at h
  | some Y =>
  cases hfd : findData stats (normalize_key mk) (normalize_key md) (normalize_key fl)
      (DATA_YEAR - (CURRENT_YEAR - Y)) with
  | error e => simp [processCar, hY, hfd] at h
  | ok fdOpt =>
    match fdOpt with
    | none =>
      simp only [processCar, hY, hfd, Except.ok.injEq, Prod.mk.injEq] at h
      obtain ⟨hc, _, _⟩ := h
      subst hc; exact ⟨rfl, rfl, rfl, rfl, rfl⟩
    | some [] =>
      simp only [processCar, hY, hfd, Except.ok.injEq, Prod.mk.injEq] at h
      obtain ⟨hc, _, _⟩ := h
      subst hc; exact ⟨rfl, rfl, rfl, rfl, rfl⟩
    | some (e :: es) =>
      cases ha : dlookup (e :: es) "avgPrice" with
      | none => simp [processCar, hY, hfd, ha] at h
      | some a =>
      cases obp with
      | none => simp [processCar, hY, hfd, ha] at h
      | some bp =>
      cases oolp with
      | none => simp [processCar, hY, hfd, ha] at h
      | some olp =>
        simp only [processCar, hY, hfd, ha, Except.ok.injEq, Prod.mk.injEq] at h
        obtain ⟨hc, _, _⟩ := h
        by_cases hnp : pyRound100 a = bp
        · simp [hnp] at hc
          subst hc; exact ⟨rfl, rfl, rfl, rfl, rfl⟩
        · simp [hnp] at hc
          subst hc; exact ⟨rfl, rfl, rfl, rfl, rfl⟩

/-- A completed run relates input and output records pointwise, in
order, agreeing outside `basicPrice`. -/
theorem update_prices_frame (stats : Stats) :
    ∀ (cars out : List Car) (u m : Nat),
      update_prices stats cars = .ok (out, u, m) →
      List.Forall₂ agreeExceptBasic cars out := by
  intro cars
  induction cars with
  | nil =>
    intro out u m h
    simp only [update_prices, Except.ok.injEq, Prod.mk.injEq] at h
    obtain ⟨ho, _, _⟩ := h
    subst ho; exact List.Forall₂.nil
  | cons car rest ih =>
    intro out u m h
    cases hp : processCar stats car with
    | error e => simp [update_prices, hp] at h
    | ok res =>
      obtain ⟨car', u1, m1⟩ := res
      cases hr : update_prices stats rest with
      | error e => simp [update_prices, hp, hr] at h
      | ok res2 =>
        obtain ⟨rest', us, ms⟩ := res2
        simp only [update_prices, hp, hr, Except.ok.injEq, Prod.mk.injEq] at h
        obtain ⟨ho, _, _⟩ := h
        subst ho
        exact List.Forall₂.cons (processCar_frame stats car car' u1 m1 hp) (ih rest' us ms hr)

/-- A second pass over a completed run's output is a no-op with zero
updates and the same miss count. -/
theorem update_prices_idem (stats : Stats) :
    ∀ (cars out : List Car) (u m : Nat),
      update_prices stats cars = .ok (out, u, m) →
      update_prices stats out = .ok (out, 0, m) := by
  intro cars
  induction cars with
  | nil =>
    intro out u m h
    simp only [update_prices, Except.ok.injEq, Prod.mk.injEq] at h
    obtain ⟨ho, _, hm⟩ := h
    subst ho; subst hm; rfl
  | cons car rest ih =>
    intro out u m h
    cases hp : processCar stats car with
    | error e => simp [update_prices, hp] at h
    | ok res =>
      obtain ⟨car', u1, m1⟩ := res
      cases hr : update_prices stats rest with
      | error e => simp [update_prices, hp, hr] at h
      | ok res2 =>
        obtain ⟨rest', us, ms⟩ := res2
        simp only [update_prices, hp, hr, Except.ok.injEq, Prod.mk.injEq] at h
        obtain ⟨ho, hu, hm⟩ := h
        subst ho; subst hm
        have h1 := processCar_idem stats car car' u1 m1 hp
        have h2 := ih rest' us ms hr
        simp [update_prices, h1, h2]

/-- A record whose year string does not parse always raises before the
loop body completes (either an earlier `KeyError` or the `ValueError`). -/
theorem processCar_badYear (stats : Stats) (car : Car) (yr : String)
    (hyr : car.yearOfManufacture = some yr) (hbad : pyParseInt yr = none) :
    ∃ e, processCar stats car = .error e := by
  obtain ⟨om, omd, ofl, oyr, obp, oolp⟩ := car
  simp only at hyr
  subst hyr
  cases om with
  | none => exact ⟨.keyError "make", rfl⟩
  | some mk =>
  cases omd with
  | none => exact ⟨.keyError "model", rfl⟩
  | some md =>
  cases ofl with
  | none => exact ⟨.keyError "fuelType", rfl⟩
  | some fl =>
    exact ⟨.valueError yr, by simp [processCar, hbad]⟩

/-- If any catalog member makes the loop body raise, the whole run
raises (the first raising record wins, possibly an earlier one). -/
theorem update_prices_member_error (stats : Stats) (cars : List Car) (c : Car)
    (hc : c ∈ cars) (he : ∃ e, processCar stats c = .error e) :
    ∃ e, update_prices stats cars = .error e := by
  induction cars with
  | nil => cases hc
  | cons a rest ih =>
    rcases List.mem_cons.mp hc with h | h
    · subst h
      obtain ⟨e, he⟩ := he
      exact ⟨e, by simp [update_prices, he]⟩
    · cases hp : processCar stats a with
      | error e => exact ⟨e, by simp [update_prices, hp]⟩
      | ok res =>
        obtain ⟨car', u1, m1⟩ := res
        obtain ⟨e, hrest⟩ := ih h
        exact ⟨e, by simp [update_prices, hp, hrest]⟩

/-- A first minimum is in particular a minimum. -/
theorem isFirstMin_min (t : Int) (l : List Int) (y : Int)
    (h : isFirstMin t l y) : y ∈ l ∧ ∀ x ∈ l, (y - t).natAbs ≤ (x - t).natAbs := by
  obtain ⟨l₁, l₂, hl, h1, h2⟩ := h
  subst hl
  constructor
  · exact List.mem_append.mpr (Or.inr (List.mem_cons_self y l₂))
  · intro x hx
    rcases List.mem_append.mp hx with hx | hx
    · exact le_of_lt (h1 x hx)
    · rcases List.mem_cons.mp hx with hx | hx
      · subst hx; exact le_refl _
      · exact h2 x hx

/-- The strict-`<` fold underlying `min(..., key=...)` keeps the first
element attaining the minimal distance. -/
theorem foldlMin_isFirstMin (t : Int) :
    ∀ (xs : List Int) (b : Int),
      isFirstMin t (b :: xs)
        (xs.foldl (fun best y => if (y - t).natAbs < (best - t).natAbs then y else best) b) := by
  intro xs
  induction xs with
  | nil =>
    intro b
    exact ⟨[], [], rfl, by simp, by simp⟩
  | cons y ys ih =>
    intro b
    simp only [List.foldl_cons]
    by_cases hlt : (y - t).natAbs < (b - t).natAbs
    · rw [if_pos hlt]
      obtain ⟨l₁, l₂, hl, h1, h2⟩ := ih y
      set r := ys.foldl (fun best z => if (z - t).natAbs < (best - t).natAbs then z else best) y with hr
      have hmin : ∀ z ∈ y :: ys, (r - t).natAbs ≤ (z - t).natAbs :=
        (isFirstMin_min t (y :: ys) r ⟨l₁, l₂, hl, h1, h2⟩).2
      refine ⟨b :: l₁, l₂, by rw [hl]; rfl, ?_, h2⟩
      intro x hx
      rcases List.mem_cons.mp hx with hx | hx
      · subst hx
        exact lt_of_le_of_lt (hmin y (List.mem_cons_self y ys)) hlt
      · exact h1 x hx
    · rw [if_neg hlt]
      push_neg at hlt
      obtain ⟨l₁, l₂, hl, h1, h2⟩ := ih b
      set r := ys.foldl (fun best z => if (z - t).natAbs < (best - t).natAbs then z else best) b with hr
      cases l₁ with
      | nil =>
        simp only [List.nil_append] at hl
        obtain ⟨hrb, hys⟩ := List.cons_eq_cons.mp hl
        subst hys
        refine ⟨[], y :: ys, ?_, by simp, ?_⟩
        · rw [List.nil_append, ← hrb]
        · intro x hx
          rcases List.mem_cons.mp hx with hx | hx
          · subst hx; rw [← hrb]; exact hlt
          · exact h2 x hx
      | cons c l₁' =>
        simp only [List.cons_append] at hl
        obtain ⟨hbc, hys⟩ := List.cons_eq_cons.mp hl
        refine ⟨b :: y :: l₁', l₂, ?_, ?_, h2⟩
        · rw [hys]; rfl
        · intro x hx
          have hrb : (r - t).natAbs < (b - t).natAbs := by
            rw [hbc]; exact h1 c (List.mem_cons_self c l₁')
          rcases List.mem_cons.mp hx with hx | hx
          · subst hx; exact hrb
          · rcases List.mem_cons.mp hx with hx | hx
            · subst hx; exact lt_of_lt_of_le hrb hlt
            · exact h1 x (List.mem_cons_of_mem c hx)

/-- What `min(avail_years, key=lambda x: abs(x - target))` returns is the
first minimal-distance year in key order. -/
theorem minByAbsDist_isFirstMin (t : Int) (l : List Int) (y : Int)
    (h : minByAbsDist t l = some y) : isFirstMin t l y := by
  cases l with
  | nil => simp [minByAbsDist] at h
  | cons x xs =>
    simp only [minByAbsDist, Option.some.injEq] at h
    rw [← h]
    exact foldlMin_isFirstMin t xs x

/-- Claim C1: for every vehicle whose normalized (make, model, fuelType)
path exists in the statistics table and whose exact target year key
`str(DATA_YEAR - (CURRENT_YEAR - yearOfManufacture))` is present, the
resulting `basicPrice` is `round(avgPrice/100)*100` from that exact
year's record, counted as one update exactly when it differs from the
stored price, and never as missing. -/
theorem exact_match_price_update (stats : Stats) (car : Car)
    (mk md fl yr : String) (Y a bp olp : Int) (model_data : ModelData) (fd : StatsRec)
    (hmk : car.make = some mk) (hmd : car.model = some md)
    (hfl : car.fuelType = some fl) (hyr : car.yearOfManufacture = some yr)
    (hY : pyParseInt yr = some Y)
    (hpath : statsPath stats (normalize_key mk) (normalize_key md) (normalize_key fl)
      = some model_data)
    (hexact : dlookup model_data (toString (DATA_YEAR - (CURRENT_YEAR - Y))) = some fd)
    (ha : dlookup fd "avgPrice" = some a)
    (hbp : car.basicPrice = some bp) (holp : car.originalListPrice = some olp) :
    processCar stats car =
      .ok ({ car with basicPrice := some (pyRound100 a) },
           if pyRound100 a = bp then 0 else 1, 0) := by
  obtain ⟨om, omd, ofl, oyr, obp, oolp⟩ := car
  replace hmk : om = some mk := hmk
  replace hmd : omd = some md := hmd
  replace hfl : ofl = some fl := hfl
  replace hyr : oyr = some yr := hyr
  replace hbp : obp = some bp := hbp
  replace holp : oolp = some olp := holp
  subst hmk; subst hmd; subst hfl; subst hyr; subst holp
  have hfd : findData stats (normalize_key mk) (normalize_key md) (normalize_key fl)
      (DATA_YEAR - (CURRENT_YEAR - Y)) = .ok (some fd) := by
    simp [findData, hpath, hexact]
  exact processCar_found stats mk md fl yr obp Y a bp olp fd hY hfd ha hbp

/-- Claim C1 witness: the Ford Focus 2018 scenario with stats
`ford.focus.petrol["2014"].avgPrice = 6430` yields `basicPrice = 6400`,
one update and no miss. -/
theorem exact_match_price_update_witness :
    processCar fordStats fordCar = .ok (fordCarAfter, 1, 0) ∧
    update_prices fordStats [fordCar] = .ok ([fordCarAfter], 1, 0) := by
  have h := exact_match_price_update fordStats fordCar "Ford" "Focus" "Petrol" "2018"
    2018 6430 5000 12000 [("2014", [("avgPrice", 6430)])]
    [("avgPrice", 6430)] rfl rfl rfl rfl (by decide) (by decide) (by decide) (by decide)
    rfl rfl
  exact ⟨h.trans (by decide), by decide⟩

/-- Claim C2 counterexample: with two candidate years equally distant
from the target (2012 and 2016 around 2014), the code picks whichever
comes first in key-iteration order — the same mapping contents in
swapped order yield different records, and the first ordering picks the
later year 2016, not the earlier 2012 the claim requires. -/
theorem fallback_tie_order_dependent :
    findData tieStats "ford" "focus" "petrol" 2014 = .ok (some [("avgPrice", 5000)]) ∧
    findData tieStatsSwap "ford" "focus" "petrol" 2014 = .ok (some [("avgPrice", 7000)]) ∧
    findData tieStats "ford" "focus" "petrol" 2014 ≠
      findData tieStatsSwap "ford" "focus" "petrol" 2014 :=
  ⟨by decide, by decide, by decide⟩

/-- Claim C2 (amended): when the exact year key is absent, the record
used is the one at the available year numerically closest (by absolute
difference) to the target lookup year; a tie is broken by taking the
first minimal candidate in the fuel-level mapping's key-iteration
(insertion) order, so the choice depends on key order rather than a
fixed prefer-the-earlier-year rule. -/
theorem fallback_nearest_first_minimal (stats : Stats) (make model fuel : String)
    (t y : Int) (model_data : ModelData) (fd : StatsRec)
    (hpath : statsPath stats make model fuel = some model_data)
    (hexact : dlookup model_data (toString t) = none)
    (hmin : minByAbsDist t (availYears model_data) = some y)
    (hy : dlookup model_data (toString y) = some fd) :
    findData stats make model fuel t = .ok (some fd) ∧
    y ∈ availYears model_data ∧
    (∀ x ∈ availYears model_data, (y - t).natAbs ≤ (x - t).natAbs) ∧
    isFirstMin t (availYears model_data) y := by
  have hfm := minByAbsDist_isFirstMin t (availYears model_data) y hmin
  have hmm := isFirstMin_min t (availYears model_data) y hfm
  exact ⟨by simp [findData, hpath, hexact, hmin, hy], hmm.1, hmm.2, hfm⟩

/-- Claim C2 (amended) witness: for the tie fixture the fallback resolves
to year 2016, the first minimal-distance year in key order. -/
theorem fallback_nearest_first_minimal_witness :
    findData tieStats "ford" "focus" "petrol" 2014 = .ok (some [("avgPrice", 5000)]) ∧
    (2016 : Int) ∈ availYears tieMD ∧
    (∀ x ∈ availYears tieMD, ((2016 : Int) - 2014).natAbs ≤ (x - 2014).natAbs) ∧
    isFirstMin 2014 (availYears tieMD) 2016 :=
  fallback_nearest_first_minimal tieStats "ford" "focus" "petrol" 2014 2016 tieMD
    [("avgPrice", 5000)] (by decide) (by decide) (by decide) (by decide)

/-- Claim C3: a catalog containing a vehicle whose `yearOfManufacture`
string does not convert to an integer makes the whole run abort with an
uncaught exception, so the catalog file is never rewritten. -/
theorem bad_year_aborts_run (stats : Stats) (cars : List Car) (c : Car) (yr : String)
    (hc : c ∈ cars) (hyr : c.yearOfManufacture = some yr) (hbad : pyParseInt yr = none) :
    ∃ e, update_prices stats cars = .error e :=
  update_prices_member_error stats cars c hc (processCar_badYear stats c yr hyr hbad)

/-- Claim C3 witness: a catalog with one good record and one whose year
is `"20x8"` aborts. -/
theorem bad_year_aborts_run_witness :
    ∃ e, update_prices fordStats [fordCar, badYearCar] = .error e :=
  bad_year_aborts_run fordStats [fordCar, badYearCar] badYearCar "20x8"
    (by decide) rfl (by decide)

/-- Claim C4 counterexample: a record missing `originalListPrice` whose
statistics lookup misses does NOT abort the run — the run completes
normally (and would rewrite the catalog), counting the record as
missing, contradicting fail-fast for that field regardless of lookup
outcome. -/
theorem missing_listprice_no_abort :
    update_prices [] [noListPriceCar] = .ok ([noListPriceCar], 0, 1) := by decide

/-- Claim C4 (amended): a record missing one of `make`, `model`,
`fuelType` or `yearOfManufacture` always aborts the run with a
`KeyError` naming that missing field (the record index is not part of
the diagnostic); `basicPrice` and `originalListPrice` are read only when
a statistics record is found, so when the lookup misses their absence
does not abort and the record is counted as missing. -/
theorem missing_field_abort_behavior (stats : Stats) (c : Car) :
    ((c.make = none ∨ c.model = none ∨ c.fuelType = none ∨ c.yearOfManufacture = none) →
      ∃ f, processCar stats c = .error (Err.keyError f) ∧ reqField c f = none) ∧
    (∀ (mk md fl yr : String) (Y : Int), c.make = some mk → c.model = some md →
      c.fuelType = some fl → c.yearOfManufacture = some yr → pyParseInt yr = some Y →
      findData stats (normalize_key mk) (normalize_key md) (normalize_key fl)
        (DATA_YEAR - (CURRENT_YEAR - Y)) = .ok none →
      processCar stats c = .ok (c, 0, 1)) := by
  constructor
  · intro hmiss
    obtain ⟨om, omd, ofl, oyr, obp, oolp⟩ := c
    cases om with
    | none => exact ⟨"make", rfl, by simp [reqField]⟩
    | some mk =>
    cases omd with
    | none => exact ⟨"model", rfl, by simp [reqField]⟩
    | some md =>
    cases ofl with
    | none => exact ⟨"fuelType", rfl, by simp [reqField]⟩
    | some fl =>
    cases oyr with
    | none => exact ⟨"yearOfManufacture", rfl, by simp [reqField]⟩
    | some yr =>
      simp only at hmiss
      rcases hmiss with h | h | h | h <;> exact absurd h (by simp)
  · intro mk md fl yr Y hmk hmd hfl hyr hY hfd
    exact processCar_notFound_car stats c mk md fl yr Y none hmk hmd hfl hyr hY hfd
      (Or.inl rfl)

/-- Claim C4 (amended) witness: a record with no `make` raises
`KeyError("make")`, and the `originalListPrice`-less record with no
stats entry is processed as a miss without error. -/
theorem missing_field_abort_behavior_witness :
    (∃ f, processCar fordStats
        (Car.mk none (some "Focus") (some "Petrol") (some "2018") (some 5000) (some 12000)) =
        .error (Err.keyError f) ∧
      reqField (Car.mk none (some "Focus") (some "Petrol") (some "2018") (some 5000)
        (some 12000)) f = none) ∧
    processCar [] noListPriceCar = .ok (noListPriceCar, 0, 1) :=
  ⟨(missing_field_abort_behavior fordStats _).1 (Or.inl rfl),
   (missing_field_abort_behavior [] noListPriceCar).2 "Ford" "Focus" "Petrol" "2018" 2018
     rfl rfl rfl rfl (by decide) (by decide)⟩

/-- Claim C5: running the procedure again on the first run's output with
the same statistics yields zero updates and the identical catalog (and
the same miss count). -/
theorem second_run_idempotent (stats : Stats) (cars out : List Car) (u m : Nat)
    (h : update_prices stats cars = .ok (out, u, m)) :
    update_prices stats out = .ok (out, 0, m) :=
  update_prices_idem stats cars out u m h

/-- Claim C5 witness: the Ford run's output re-runs to itself with
`updated = 0`. -/
theorem second_run_idempotent_witness :
    update_prices fordStats [fordCarAfter] = .ok ([fordCarAfter], 0, 0) :=
  second_run_idempotent fordStats [fordCar] [fordCarAfter] 1 0 (by decide)

/-- Claim C6: a vehicle whose normalized (make, model, fuelType) path is
absent from the statistics table is left entirely unchanged and
contributes exactly one to the missing counter. -/
theorem lookup_miss_leaves_car (stats : Stats) (car : Car)
    (mk md fl yr : String) (Y : Int)
    (hmk : car.make = some mk) (hmd : car.model = some md)
    (hfl : car.fuelType = some fl) (hyr : car.yearOfManufacture = some yr)
    (hY : pyParseInt yr = some Y)
    (hpath : statsPath stats (normalize_key mk) (normalize_key md) (normalize_key fl)
      = none) :
    processCar stats car = .ok (car, 0, 1) := by
  have hfd : findData stats (normalize_key mk) (normalize_key md) (normalize_key fl)
      (DATA_YEAR - (CURRENT_YEAR - Y)) = .ok none := by
    simp [findData, hpath]
  exact processCar_notFound_car stats car mk md fl yr Y none hmk hmd hfl hyr hY hfd
    (Or.inl rfl)

/-- Claim C6 witness: the Ford record against an Audi-only table is
unchanged and counted missing. -/
theorem lookup_miss_leaves_car_witness :
    processCar [("audi", [])] fordCar = .ok (fordCar, 0, 1) :=
  lookup_miss_leaves_car [("audi", [])] fordCar "Ford" "Focus" "Petrol" "2018" 2018
    rfl rfl rfl rfl (by decide) (by decide)

/-- Claim C7: a completed run returns exactly the same records in the
same order, each agreeing with its input on every field except
`basicPrice`. -/
theorem only_basicPrice_mutates (stats : Stats) (cars out : List Car) (u m : Nat)
    (h : update_prices stats cars = .ok (out, u, m)) :
    List.Forall₂ agreeExceptBasic cars out :=
  update_prices_frame stats cars out u m h

/-- Claim C7 witness: the two-record run keeps order and all
non-`basicPrice` fields. -/
theorem only_basicPrice_mutates_witness :
    List.Forall₂ agreeExceptBasic [fordCar, audiCar] [fordCarAfter, audiCar] :=
  only_basicPrice_mutates fordStats [fordCar, audiCar] [fordCarAfter, audiCar] 1 1
    (by decide)

/-- Claim C8: when a stats record is found and the recomputed rounded
price differs from `basicPrice`, the new price is applied and counted
even when it exceeds `originalListPrice` — the sanity check changes
neither the output record nor the counters. -/
theorem sanity_check_no_effect (stats : Stats) (car : Car)
    (mk md fl yr : String) (Y a bp olp : Int) (fd : StatsRec)
    (hmk : car.make = some mk) (hmd : car.model = some md)
    (hfl : car.fuelType = some fl) (hyr : car.yearOfManufacture = some yr)
    (hY : pyParseInt yr = some Y)
    (hfd : findData stats (normalize_key mk) (normalize_key md) (normalize_key fl)
      (DATA_YEAR - (CURRENT_YEAR - Y)) = .ok (some fd))
    (ha : dlookup fd "avgPrice" = some a)
    (hbp : car.basicPrice = some bp) (holp : car.originalListPrice = some olp)
    (hne : pyRound100 a ≠ bp) (hexceed : olp < pyRound100 a) :
    processCar stats car = .ok ({ car with basicPrice := some (pyRound100 a) }, 1, 0) := by
  obtain ⟨om, omd, ofl, oyr, obp, oolp⟩ := car
  replace hmk : om = some mk := hmk
  replace hmd : omd = some md := hmd
  replace hfl : ofl = some fl := hfl
  replace hyr : oyr = some yr := hyr
  replace hbp : obp = some bp := hbp
  replace holp : oolp = some olp := holp
  subst hmk; subst hmd; subst hfl; subst hyr; subst holp
  have h := processCar_found stats mk md fl yr obp Y a bp olp fd hY hfd ha hbp
  rw [h, if_neg hne]

/-- Claim C8 witness: with `originalListPrice = 6000` the applied price
6400 exceeds it and is applied all the same. -/
theorem sanity_check_no_effect_witness :
    processCar fordStats lowListCar =
      .ok (⟨some "Ford", some "Focus", some "Petrol", some "2018", some 6400, some 6000⟩,
        1, 0) := by
  have h := sanity_check_no_effect fordStats lowListCar "Ford" "Focus" "Petrol" "2018"
    2018 6430 5000 6000 [("avgPrice", 6430)] rfl rfl rfl rfl (by decide) (by decide)
    (by decide) rfl rfl (by decide) (by decide)
  exact h.trans (by decide)

/-- Claim C9: a vehicle whose found stats already round to its stored
`basicPrice` is counted in neither counter and left unchanged, so
`updated + missing` can be strictly below the catalog size. -/
theorem equal_price_counts_nothing (stats : Stats) (car : Car)
    (mk md fl yr : String) (Y a bp olp : Int) (fd : StatsRec)
    (hmk : car.make = some mk) (hmd : car.model = some md)
    (hfl : car.fuelType = some fl) (hyr : car.yearOfManufacture = some yr)
    (hY : pyParseInt yr = some Y)
    (hfd : findData stats (normalize_key mk) (normalize_key md) (normalize_key fl)
      (DATA_YEAR - (CURRENT_YEAR - Y)) = .ok (some fd))
    (ha : dlookup fd "avgPrice" = some a)
    (hbp : car.basicPrice = some bp) (holp : car.originalListPrice = some olp)
    (heq : pyRound100 a = bp) :
    processCar stats car = .ok (car, 0, 0) ∧
    update_prices stats [car] = .ok ([car], 0, 0) ∧
    0 + 0 < ([car] : List Car).length := by
  obtain ⟨om, omd, ofl, oyr, obp, oolp⟩ := car
  replace hmk : om = some mk := hmk
  replace hmd : omd = some md := hmd
  replace hfl : ofl = some fl := hfl
  replace hyr : oyr = some yr := hyr
  replace hbp : obp = some bp := hbp
  replace holp : oolp = some olp := holp
  subst hmk; subst hmd; subst hfl; subst hyr; subst holp; subst hbp
  have h := processCar_found stats mk md fl yr (some bp) Y a bp olp fd hY hfd ha rfl
  rw [if_pos heq] at h
  rw [heq] at h
  refine ⟨h, ?_, by simp⟩
  simp [update_prices, h]

/-- Claim C9 witness: the already-corrected Ford record re-prices to
itself with both counters zero, below the catalog size of one. -/
theorem equal_price_counts_nothing_witness :
    processCar fordStats matchedCar = .ok (matchedCar, 0, 0) ∧
    update_prices fordStats [matchedCar] = .ok ([matchedCar], 0, 0) ∧
    0 + 0 < ([matchedCar] : List Car).length :=
  equal_price_counts_nothing fordStats matchedCar "Ford" "Focus" "Petrol" "2018"
    2018 6430 6400 12000 [("avgPrice", 6430)] rfl rfl rfl rfl (by decide) (by decide)
    (by decide) rfl rfl (by decide)

/-- Claim C10: a selected stats record that is an empty mapping is falsy,
so the vehicle is treated exactly like a lookup miss — no `KeyError` on
the absent `avgPrice`, record unchanged, one miss counted. -/
theorem empty_stats_record_is_miss (stats : Stats) (car : Car)
    (mk md fl yr : String) (Y : Int)
    (hmk : car.make = some mk) (hmd : car.model = some md)
    (hfl : car.fuelType = some fl) (hyr : car.yearOfManufacture = some yr)
    (hY : pyParseInt yr = some Y)
    (hfd : findData stats (normalize_key mk) (normalize_key md) (normalize_key fl)
      (DATA_YEAR - (CURRENT_YEAR - Y)) = .ok (some [])) :
    processCar stats car = .ok (car, 0, 1) :=
  processCar_notFound_car stats car mk md fl yr Y (some []) hmk hmd hfl hyr hY hfd
    (Or.inr rfl)

/-- Claim C10 witness: an exact year hit on an empty `{}` record is a
miss, not a failure. -/
theorem empty_stats_record_is_miss_witness :
    processCar emptyRecStats fordCar = .ok (fordCar, 0, 1) :=
  empty_stats_record_is_miss emptyRecStats fordCar "Ford" "Focus" "Petrol" "2018" 2018
    rfl rfl rfl rfl (by decide) (by decide)
